import Mathlib

/-!
# Verification of the hot-reload coordinator in `src/reload/watcher.rs`

Shallow embedding of `ShaderGraphWatcher` (shadergarden). The watcher owns
a last-reload timestamp (`Instant`), the watched `path` and `config` paths,
an atomic change flag, and the currently held shader graph.

Modelling choices:
* Time is `Nat` (milliseconds since some origin); `Instant::now()` at a call
  is passed in as the `now` argument, and `last_reload.elapsed()` is
  `now - last_reload` (the `Instant` clock is monotone, so `now` is always
  at least `last_reload` in reachable states).
* The graph type is a type parameter `G`; the external builder
  (`ShaderGraphWatcher::build`, delegating to `ShaderDir::new_from_dir` and
  `graph_from_sexp`) is an opaque parameter
  `builder : String → String → Nat → Except String G`: the result of
  invoking the builder on the stored paths at a given time (the filesystem
  may change between calls, so the outcome depends on the time of the call).
* The `AtomicBool` is a plain `Bool` field: all coordinator operations run
  on the single consumer thread, and producers only ever `store true`
  (modelled by the `Op.mark` step below).
-/

set_option autoImplicit false

namespace Shadergarden

/-- The `WatchResult` enum from `watcher.rs`. -/
inductive WatchResult where
  /-- No changes were made. -/
  | NoChange : WatchResult
  /-- Changes were made and the graph was rebuilt. -/
  | Rebuilt : WatchResult
  /-- Changes were made but the graph could not be rebuilt. -/
  | Err : String → WatchResult
deriving DecidableEq, Repr

/-- The mutable state of a `ShaderGraphWatcher`: `last_reload : Instant`,
the stored `path` and `config`, the `changed : Arc<AtomicBool>` flag, and
the held `shader_graph`.  (`context` and `_watcher` carry no state relevant
to the coordination logic and are omitted.) -/
structure WatcherState (G : Type) where
  last_reload : Nat
  path : String
  config : String
  changed : Bool
  shader_graph : G
deriving DecidableEq, Repr

/-- The type of the external artifact builder: given the stored location and
config paths and the time of the call, either the built graph or an error
message (`ShaderGraphWatcher::build`). -/
def Builder (G : Type) : Type := String → String → Nat → Except String G

/-- `graph_no_reload`: returns the held shader graph without touching
anything (`&mut self.shader_graph`).  Returned as (graph view, state after
the call). -/
def graph_no_reload {G : Type} (s : WatcherState G) : G × WatcherState G :=
  (s.shader_graph, s)

/-- `graph_force_reload`: unconditionally invokes the builder on the stored
paths; on `Ok(graph)` replaces the held graph and reports `Rebuilt`, on
`Err(error)` leaves the graph and reports `Err(error)`; in both cases sets
`last_reload = Instant::now()` and returns the (possibly new) held graph. -/
def graph_force_reload {G : Type} (builder : Builder G) (now : Nat)
    (s : WatcherState G) : G × WatchResult × WatcherState G :=
  match builder s.path s.config now with
  | .ok g =>
      (g, WatchResult.Rebuilt,
        { s with shader_graph := g, last_reload := now })
  | .error e =>
      (s.shader_graph, WatchResult.Err e, { s with last_reload := now })

/-- `graph`: if strictly more than 300 ms elapsed since `last_reload` and
the atomic `swap(false)` on the change flag returns `true`, delegate to
`graph_force_reload`; otherwise return the held graph with `NoChange`.
The `&&` is short-circuiting: the swap only happens when the elapsed-time
test passes. -/
def graph {G : Type} (builder : Builder G) (now : Nat)
    (s : WatcherState G) : G × WatchResult × WatcherState G :=
  if 300 < now - s.last_reload then
    -- the swap reads the old value and stores false
    let old := s.changed
    let s' := { s with changed := false }
    if old then
      graph_force_reload builder now s'
    else
      (s'.shader_graph, WatchResult.NoChange, s')
  else
    (s.shader_graph, WatchResult.NoChange, s)

/-- Outcome of `new_watch_dir`: the code `.unwrap()`s the watcher creation
and the `watcher.watch` call, so a failure there panics the calling thread
rather than returning `Err`; builder failure propagates with `?`. -/
inductive ConstructResult (G : Type) where
  /-- an `.unwrap()` hit an `Err`: the constructor panicked. -/
  | panicked : ConstructResult G
  /-- the constructor returned `Err(msg)`. -/
  | failed : String → ConstructResult G
  /-- the constructor returned `Ok` with this initial state. -/
  | ok : WatcherState G → ConstructResult G
deriving DecidableEq, Repr

/-- `new_watch_dir`: builds the watcher (`RecommendedWatcher::new(..).unwrap()`),
installs the watch (`watcher.watch(..).unwrap()`), tries to install the
SIGUSR1 listener (failure only logged), performs the first build (failure
propagated with `?`), and on success returns the initial state with
`changed = false` and `last_reload = Instant::now()`.  The outcomes of the
three external setup calls are passed in as `Except` values. -/
def new_watch_dir {G : Type} (watcherNew : Except String Unit)
    (watchCall : Except String Unit) (signalsNew : Except String Unit)
    (builder : Builder G) (now : Nat) (path config : String) :
    ConstructResult G :=
  match watcherNew with
  | .error _ => ConstructResult.panicked
  | .ok _ =>
    match watchCall with
    | .error _ => ConstructResult.panicked
    | .ok _ =>
      -- `match signals { Ok => spawn listener thread, Err => log }`:
      -- neither branch affects the construction result
      match signalsNew with
      | .ok _ =>
        match builder path config now with
        | .error e => ConstructResult.failed e
        | .ok g =>
            ConstructResult.ok
              { last_reload := now, path := path, config := config,
                changed := false, shader_graph := g }
      | .error _ =>
        match builder path config now with
        | .error e => ConstructResult.failed e
        | .ok g =>
            ConstructResult.ok
              { last_reload := now, path := path, config := config,
                changed := false, shader_graph := g }

/-- The change flag's producer operation: `changed.store(true, SeqCst)`. -/
def mark (_flag : Bool) : Bool := true

/-- The change flag's consumer operation: `changed.swap(false, SeqCst)` —
returns the pre-reset value and resets the flag to `false`. -/
def consume (flag : Bool) : Bool × Bool := (flag, false)

/-- The condition under which `graph` performs an automatic rebuild attempt
(delegates to `graph_force_reload`): more than 300 ms elapsed and the
change flag is set. -/
def pollAttempts {G : Type} (s : WatcherState G) (now : Nat) : Prop :=
  300 < now - s.last_reload ∧ s.changed = true

instance {G : Type} (s : WatcherState G) (now : Nat) :
    Decidable (pollAttempts s now) := by
  unfold pollAttempts; infer_instance

/-- Steps of a consumer/producer trace against one watcher: the three
public operations (run on the consumer thread at a given time) plus a
background `mark` (a producer storing `true` into the change flag). -/
inductive Op where
  | peek : Op
  | force : Op
  | poll : Op
  | mark : Op
deriving DecidableEq, Repr

/-- State transition of a single trace step at time `t`. -/
def step {G : Type} (builder : Builder G) (o : Op) (t : Nat)
    (s : WatcherState G) : WatcherState G :=
  match o with
  | Op.peek => (graph_no_reload s).2
  | Op.force => (graph_force_reload builder t s).2.2
  | Op.poll => (graph builder t s).2.2
  | Op.mark => { s with changed := true }

/-- Execution of a timed trace of steps, earliest first. -/
def exec {G : Type} (builder : Builder G) (tr : List (Nat × Op))
    (s : WatcherState G) : WatcherState G :=
  match tr with
  | [] => s
  | (t, o) :: rest => exec builder rest (step builder o t s)

/-- The held graph was produced by some successful builder invocation on
the stored paths. -/
def GraphFromBuilder {G : Type} (builder : Builder G)
    (s : WatcherState G) : Prop :=
  ∃ t : Nat, builder s.path s.config t = Except.ok s.shader_graph

/-! ## Helper lemmas -/

theorem force_reload_last_reload {G : Type} (builder : Builder G) (now : Nat)
    (s : WatcherState G) :
    (graph_force_reload builder now s).2.2.last_reload = now := by
  unfold graph_force_reload
  cases builder s.path s.config now <;> rfl

theorem force_reload_changed {G : Type} (builder : Builder G) (now : Nat)
    (s : WatcherState G) :
    (graph_force_reload builder now s).2.2.changed = s.changed := by
  unfold graph_force_reload
  cases builder s.path s.config now <;> rfl

theorem force_reload_path {G : Type} (builder : Builder G) (now : Nat)
    (s : WatcherState G) :
    (graph_force_reload builder now s).2.2.path = s.path := by
  unfold graph_force_reload
  cases builder s.path s.config now <;> rfl

theorem force_reload_config {G : Type} (builder : Builder G) (now : Nat)
    (s : WatcherState G) :
    (graph_force_reload builder now s).2.2.config = s.config := by
  unfold graph_force_reload
  cases builder s.path s.config now <;> rfl

/-- Clearing an already-clear flag is the identity on the state. -/
theorem set_changed_false_eq {G : Type} (s : WatcherState G)
    (h : s.changed = false) : { s with changed := false } = s := by
  cases s
  simp_all

/-- When the debounce interval has elapsed and the flag is set, `graph`
delegates to `graph_force_reload` on the state with the flag cleared by
the swap. -/
theorem graph_eq_force {G : Type} (builder : Builder G) (now : Nat)
    (s : WatcherState G) (h1 : 300 < now - s.last_reload)
    (h2 : s.changed = true) :
    graph builder now s =
      graph_force_reload builder now { s with changed := false } := by
  simp [graph, h1, h2]

/-- In every other case `graph` returns the held graph with `NoChange` and
leaves the state unchanged. -/
theorem graph_eq_noChange {G : Type} (builder : Builder G) (now : Nat)
    (s : WatcherState G)
    (h : ¬ (300 < now - s.last_reload ∧ s.changed = true)) :
    graph builder now s = (s.shader_graph, WatchResult.NoChange, s) := by
  by_cases hA : 300 < now - s.last_reload
  · have hc : s.changed = false := by
      cases hcc : s.changed
      · rfl
      · exact absurd ⟨hA, hcc⟩ h
    have he := set_changed_false_eq s hc
    simp [graph, hA, hc, he]
  · simp [graph, hA]

/-! ## Concrete instances used by witnesses -/

/-- A builder that always fails with message `"bad"`. -/
def builderFail : Builder Nat := fun _ _ _ => Except.error "bad"

/-- A builder that always succeeds, returning the call time as the graph. -/
def builderOk : Builder Nat := fun _ _ t => Except.ok t

/-- A sample watcher state with a set change flag. -/
def sampleState : WatcherState Nat :=
  { last_reload := 0, path := "shaders", config := "shaders/cfg",
    changed := true, shader_graph := 42 }

/-- Iterated `mark()` calls against the change flag. -/
def applyMarks (n : Nat) (flag : Bool) : Bool :=
  match n with
  | 0 => flag
  | Nat.succ m => applyMarks m (mark flag)

theorem applyMarks_pos (n : Nat) (flag : Bool) (h : 0 < n) :
    applyMarks n flag = true := by
  induction n generalizing flag with
  | zero => exact absurd h (by simp)
  | succ m ih =>
    cases m with
    | zero => rfl
    | succ k => exact ih (mark flag) (Nat.succ_pos k)

/-! ## Claims -/

/-- C1: if the builder fails, `graph_force_reload` leaves the held graph
(and the path, config and change flag) unchanged, still resets
`last_reload` to the time of the call, and returns `Err` with the builder's
message alongside a view of the unchanged graph. -/
theorem force_reload_failure_frame {G : Type} (builder : Builder G)
    (now : Nat) (s : WatcherState G) (e : String)
    (h : builder s.path s.config now = Except.error e) :
    graph_force_reload builder now s =
      (s.shader_graph, WatchResult.Err e, { s with last_reload := now }) := by
  unfold graph_force_reload
  rw [h]

/-- C1 witness: a failing builder at a concrete state. -/
theorem force_reload_failure_frame_witness :
    graph_force_reload builderFail 500 sampleState =
      (42, WatchResult.Err "bad", { sampleState with last_reload := 500 }) :=
  force_reload_failure_frame builderFail 500 sampleState "bad" rfl

/-- C9: `graph_no_reload` returns a view of the held graph and changes
nothing: the state after the call is exactly the state before, and no
builder invocation occurs (the operation does not even receive the
builder). -/
theorem graph_no_reload_frame {G : Type} (s : WatcherState G) :
    graph_no_reload s = (s.shader_graph, s) := rfl

/-- C8: after any positive number of `mark()`s, one `consume()` returns
`true` and resets the flag, a second `consume()` with no intervening mark
returns `false`, and with no marks at all `consume()` returns `false`. -/
theorem flag_mark_consume_coalescing (n : Nat) (flag : Bool) (h : 0 < n) :
    (consume (applyMarks n flag)).1 = true ∧
    (consume (applyMarks n flag)).2 = false ∧
    (consume (consume (applyMarks n flag)).2).1 = false ∧
    (consume (applyMarks 0 false)).1 = false := by
  refine ⟨?_, rfl, rfl, rfl⟩
  rw [applyMarks_pos n flag h]
  rfl

/-- C8 witness: three marks coalesce into a single `true`. -/
theorem flag_mark_consume_coalescing_witness :
    (consume (applyMarks 3 false)).1 = true ∧
    (consume (applyMarks 3 false)).2 = false ∧
    (consume (consume (applyMarks 3 false)).2).1 = false ∧
    (consume (applyMarks 0 false)).1 = false :=
  flag_mark_consume_coalescing 3 false (by decide)

/-- C2: `graph` delegates to `graph_force_reload` (with the change flag
cleared by the swap) exactly when more than 300 ms elapsed since
`last_reload` and the flag was set; in every other case it returns the
held graph with `NoChange` and leaves the state unchanged; and a poll
immediately after a delegating poll returns `NoChange` because the
debounce clock was reset. -/
theorem poll_delegation_iff {G : Type} (builder : Builder G) (now : Nat)
    (s : WatcherState G) :
    (pollAttempts s now →
      graph builder now s =
        graph_force_reload builder now { s with changed := false }) ∧
    (¬ pollAttempts s now →
      graph builder now s = (s.shader_graph, WatchResult.NoChange, s)) ∧
    (pollAttempts s now →
      graph builder now ((graph builder now s).2.2) =
        (((graph builder now s).2.2).shader_graph, WatchResult.NoChange,
          (graph builder now s).2.2)) := by
  have p1 : pollAttempts s now →
      graph builder now s =
        graph_force_reload builder now { s with changed := false } :=
    fun h => graph_eq_force builder now s h.1 h.2
  refine ⟨p1, fun hn => graph_eq_noChange builder now s hn, ?_⟩
  intro h
  generalize hq : (graph builder now s).2.2 = p
  have hpost : p.last_reload = now := by
    rw [← hq, p1 h]
    exact force_reload_last_reload builder now _
  have hlt : ¬ 300 < now - p.last_reload := by
    rw [hpost]
    simp
  simp [graph, hlt]

/-- C2 witness: delegation at 400 ms with the flag set, `NoChange` at
100 ms, and `NoChange` on the immediate re-poll after a rebuild. -/
theorem poll_delegation_iff_witness :
    graph builderOk 400 sampleState =
      graph_force_reload builderOk 400 { sampleState with changed := false } ∧
    graph builderOk 100 sampleState =
      (sampleState.shader_graph, WatchResult.NoChange, sampleState) ∧
    graph builderOk 400 ((graph builderOk 400 sampleState).2.2) =
      (((graph builderOk 400 sampleState).2.2).shader_graph,
        WatchResult.NoChange, (graph builderOk 400 sampleState).2.2) :=
  ⟨(poll_delegation_iff builderOk 400 sampleState).1 (by constructor <;> decide),
   (poll_delegation_iff builderOk 100 sampleState).2.1 (by intro hp; exact absurd hp.1 (by decide)),
   (poll_delegation_iff builderOk 400 sampleState).2.2 (by constructor <;> decide)⟩

/-- C5: when at most 300 ms have elapsed since the last reload attempt,
`graph` returns the held graph with `NoChange` and changes nothing (the
change flag is not even read, the clock and graph are untouched), and any
sequence of such early polls leaves the state exactly as it was. -/
theorem early_poll_frame {G : Type} (builder : Builder G) (now : Nat)
    (s : WatcherState G) (h : now - s.last_reload ≤ 300) :
    graph builder now s = (s.shader_graph, WatchResult.NoChange, s) ∧
    ∀ tr : List Nat, (∀ t ∈ tr, t - s.last_reload ≤ 300) →
      exec builder (tr.map fun t => (t, Op.poll)) s = s := by
  have single : ∀ t, t - s.last_reload ≤ 300 →
      graph builder t s = (s.shader_graph, WatchResult.NoChange, s) := by
    intro t ht
    have hlt : ¬ 300 < t - s.last_reload := by omega
    simp [graph, hlt]
  refine ⟨single now h, ?_⟩
  intro tr
  induction tr with
  | nil => intro _; rfl
  | cons a l ih =>
    intro htr
    have hstep : step builder Op.poll a s = s := by
      simp [step, single a (htr a (by simp))]
    rw [List.map_cons]
    show exec builder (l.map fun t => (t, Op.poll))
      (step builder Op.poll a s) = s
    rw [hstep]
    exact ih fun t ht => htr t (by simp [ht])

/-- C5 witness: two early polls (100 ms and 200 ms after the last attempt)
with the flag set leave the concrete state untouched. -/
theorem early_poll_frame_witness :
    graph builderOk 200 sampleState =
      (sampleState.shader_graph, WatchResult.NoChange, sampleState) ∧
    exec builderOk ([100, 200].map fun t => (t, Op.poll)) sampleState =
      sampleState := by
  have h := early_poll_frame builderOk 200 sampleState (by decide)
  exact ⟨h.1, h.2 [100, 200] (by decide)⟩

/-- C7: with the watch installed successfully, if the first builder call
fails then `new_watch_dir` fails as a whole with the builder's error (no
instance is produced); if it succeeds, the built graph becomes the held
graph, the change flag starts clear, and `last_reload` is the construction
time. -/
theorem construction_first_build {G : Type} (sn : Except String Unit)
    (builder : Builder G) (now : Nat) (p c : String) :
    (∀ e, builder p c now = Except.error e →
      new_watch_dir (Except.ok ()) (Except.ok ()) sn builder now p c =
        ConstructResult.failed e) ∧
    (∀ g, builder p c now = Except.ok g →
      new_watch_dir (Except.ok ()) (Except.ok ()) sn builder now p c =
        ConstructResult.ok
          { last_reload := now, path := p, config := c,
            changed := false, shader_graph := g }) := by
  constructor
  · intro e he
    cases sn <;> simp [new_watch_dir, he]
  · intro g hg
    cases sn <;> simp [new_watch_dir, hg]

/-- C7 witness: a failing and a succeeding first build at concrete
inputs. -/
theorem construction_first_build_witness :
    new_watch_dir (Except.ok ()) (Except.ok ()) (Except.ok ())
        builderFail 7 "p" "c" = ConstructResult.failed "bad" ∧
    new_watch_dir (Except.ok ()) (Except.ok ()) (Except.ok ())
        builderOk 7 "p" "c" =
      ConstructResult.ok
        { last_reload := 7, path := "p", config := "c",
          changed := false, shader_graph := 7 } :=
  ⟨(construction_first_build (Except.ok ()) builderFail 7 "p" "c").1 "bad" rfl,
   (construction_first_build (Except.ok ()) builderOk 7 "p" "c").2 7 rfl⟩

/-- C3 counterexample: when installing the filesystem watch fails, the
constructor does NOT propagate the setup error as a construction failure
(`ConstructResult.failed`): the `.unwrap()` panics instead. -/
theorem watch_setup_failure_counterexample :
    new_watch_dir (Except.error "inotify init failed") (Except.ok ())
        (Except.ok ()) builderOk 0 "shaders" "shaders/cfg" =
      ConstructResult.panicked ∧
    ∀ msg, new_watch_dir (Except.error "inotify init failed") (Except.ok ())
        (Except.ok ()) builderOk 0 "shaders" "shaders/cfg" ≠
      ConstructResult.failed msg :=
  ⟨rfl, fun _ h => ConstructResult.noConfusion h⟩

/-- C3 amended: if installing the filesystem watch fails during
construction (either the watcher creation or the `watch` call returns an
error), construction does not complete and no coordinator instance is
produced — but the setup error is not propagated as the construction
failure: the constructor panics (`.unwrap()`), which is terminal to the
calling thread, and hence to the process when construction runs on the
main thread. -/
theorem watch_setup_failure_panics {G : Type} (wn wc sn : Except String Unit)
    (builder : Builder G) (now : Nat) (p c : String)
    (h : (∃ e, wn = Except.error e) ∨
         (wn = Except.ok () ∧ ∃ e, wc = Except.error e)) :
    new_watch_dir wn wc sn builder now p c = ConstructResult.panicked := by
  rcases h with ⟨e, he⟩ | ⟨hok, e, he⟩
  · simp [new_watch_dir, he]
  · subst hok
    simp [new_watch_dir, he]

/-- C3 amended witness: a failing `watch` call panics construction. -/
theorem watch_setup_failure_panics_witness :
    new_watch_dir (Except.ok ()) (Except.error "watch failed")
      (Except.ok ()) builderFail 3 "p" "c" = ConstructResult.panicked :=
  watch_setup_failure_panics (Except.ok ()) (Except.error "watch failed")
    (Except.ok ()) builderFail 3 "p" "c" (Or.inr ⟨rfl, "watch failed", rfl⟩)

/-! ## Preservation of `GraphFromBuilder` (helpers for the invariant) -/

theorem graphFromBuilder_force {G : Type} (builder : Builder G) (now : Nat)
    (s : WatcherState G) (h : GraphFromBuilder builder s) :
    GraphFromBuilder builder (graph_force_reload builder now s).2.2 := by
  unfold graph_force_reload
  cases hb : builder s.path s.config now with
  | ok g => exact ⟨now, hb⟩
  | error e => exact h

theorem graphFromBuilder_poll {G : Type} (builder : Builder G) (now : Nat)
    (s : WatcherState G) (h : GraphFromBuilder builder s) :
    GraphFromBuilder builder (graph builder now s).2.2 := by
  by_cases hA : 300 < now - s.last_reload ∧ s.changed = true
  · rw [graph_eq_force builder now s hA.1 hA.2]
    exact graphFromBuilder_force builder now { s with changed := false } h
  · rw [graph_eq_noChange builder now s hA]
    exact h

theorem graphFromBuilder_step {G : Type} (builder : Builder G) (o : Op)
    (t : Nat) (s : WatcherState G) (h : GraphFromBuilder builder s) :
    GraphFromBuilder builder (step builder o t s) := by
  cases o with
  | peek => exact h
  | force => exact graphFromBuilder_force builder t s h
  | poll => exact graphFromBuilder_poll builder t s h
  | mark => exact h

theorem graphFromBuilder_exec {G : Type} (builder : Builder G)
    (tr : List (Nat × Op)) (s : WatcherState G)
    (h : GraphFromBuilder builder s) :
    GraphFromBuilder builder (exec builder tr s) := by
  induction tr generalizing s with
  | nil => exact h
  | cons a l ih =>
    obtain ⟨t, o⟩ := a
    exact ih (step builder o t s) (graphFromBuilder_step builder o t s h)

theorem graphFromBuilder_construct {G : Type}
    (wn wc sn : Except String Unit) (builder : Builder G) (now : Nat)
    (p c : String) (st : WatcherState G)
    (h : new_watch_dir wn wc sn builder now p c = ConstructResult.ok st) :
    GraphFromBuilder builder st := by
  unfold new_watch_dir at h
  cases wn with
  | error e => exact absurd h (by simp)
  | ok u =>
    cases wc with
    | error e => exact absurd h (by simp)
    | ok u2 =>
      cases sn with
      | ok u3 =>
        cases hb : builder p c now with
        | error e =>
          rw [hb] at h
          exact absurd h (by simp)
        | ok g =>
          rw [hb] at h
          simp only [ConstructResult.ok.injEq] at h
          subst h
          exact ⟨now, hb⟩
      | error e =>
        cases hb : builder p c now with
        | error e2 =>
          rw [hb] at h
          exact absurd h (by simp)
        | ok g =>
          rw [hb] at h
          simp only [ConstructResult.ok.injEq] at h
          subst h
          exact ⟨now, hb⟩

/-- C4: the held shader graph is always one produced by a successful
builder call on the stored paths: it holds of the state a successful
construction returns, it is preserved by `graph_no_reload`,
`graph_force_reload`, `graph`, and by any trace of operations; and a
failed rebuild never replaces the held graph. -/
theorem held_graph_invariant {G : Type} (builder : Builder G)
    (s : WatcherState G) (h : GraphFromBuilder builder s) :
    GraphFromBuilder builder (graph_no_reload s).2 ∧
    (∀ now, GraphFromBuilder builder (graph_force_reload builder now s).2.2) ∧
    (∀ now, GraphFromBuilder builder (graph builder now s).2.2) ∧
    (∀ tr, GraphFromBuilder builder (exec builder tr s)) ∧
    (∀ wn wc sn now p c st,
        new_watch_dir wn wc sn builder now p c = ConstructResult.ok st →
        GraphFromBuilder builder st) ∧
    (∀ now e, builder s.path s.config now = Except.error e →
        (graph_force_reload builder now s).2.2.shader_graph =
          s.shader_graph) := by
  refine ⟨h, fun now => graphFromBuilder_force builder now s h,
    fun now => graphFromBuilder_poll builder now s h,
    fun tr => graphFromBuilder_exec builder tr s h,
    fun wn wc sn now p c st hc =>
      graphFromBuilder_construct wn wc sn builder now p c st hc,
    ?_⟩
  intro now e he
  unfold graph_force_reload
  rw [he]

/-- C4 witness: the invariant at a concrete state, preserved through a
poll that rebuilds and through a trace with a background mark. -/
theorem held_graph_invariant_witness :
    GraphFromBuilder builderOk (graph_no_reload sampleState).2 ∧
    GraphFromBuilder builderOk (graph builderOk 400 sampleState).2.2 ∧
    GraphFromBuilder builderOk
      (exec builderOk [(400, Op.poll), (500, Op.mark)] sampleState) := by
  have h := held_graph_invariant builderOk sampleState ⟨42, rfl⟩
  exact ⟨h.1, h.2.2.1 400,
    h.2.2.2.1 [(400, Op.poll), (500, Op.mark)]⟩

/-! ## Lower bounds on the debounce clock (helpers for the temporal claim) -/

theorem step_last_reload_ge {G : Type} (builder : Builder G) (o : Op)
    (t : Nat) (s : WatcherState G) (L : Nat)
    (hs : L ≤ s.last_reload) (ht : L ≤ t) :
    L ≤ (step builder o t s).last_reload := by
  cases o with
  | peek => exact hs
  | mark => exact hs
  | force =>
    show L ≤ (graph_force_reload builder t s).2.2.last_reload
    rw [force_reload_last_reload]
    exact ht
  | poll =>
    show L ≤ (graph builder t s).2.2.last_reload
    by_cases hA : 300 < t - s.last_reload ∧ s.changed = true
    · rw [graph_eq_force builder t s hA.1 hA.2, force_reload_last_reload]
      exact ht
    · rw [graph_eq_noChange builder t s hA]
      exact hs

theorem exec_last_reload_ge {G : Type} (builder : Builder G)
    (tr : List (Nat × Op)) (s : WatcherState G) (L : Nat)
    (hs : L ≤ s.last_reload) (htr : ∀ p ∈ tr, L ≤ p.1) :
    L ≤ (exec builder tr s).last_reload := by
  induction tr generalizing s with
  | nil => exact hs
  | cons a l ih =>
    obtain ⟨t, o⟩ := a
    exact ih (step builder o t s)
      (step_last_reload_ge builder o t s L hs (htr (t, o) (by simp)))
      (fun p hp => htr p (by simp [hp]))

/-- C6: between an automatic rebuild attempt (a `graph` call that
delegates) at time `t1` and any later automatic attempt at time `t2`,
after any intermediate operations at times ≥ `t1`, strictly more than
300 ms elapse; an explicit `graph_force_reload` is not subject to this
limit — it attempts a rebuild unconditionally (never returns
`NoChange`). -/
theorem auto_rebuild_debounce {G : Type} (builder : Builder G)
    (s : WatcherState G) (t1 t2 : Nat) (tr : List (Nat × Op))
    (h1 : pollAttempts s t1)
    (htr : ∀ p ∈ tr, t1 ≤ p.1)
    (h2 : pollAttempts (exec builder tr ((graph builder t1 s).2.2)) t2) :
    300 < t2 - t1 ∧
    ∀ (now : Nat) (st : WatcherState G),
      (graph_force_reload builder now st).2.1 ≠ WatchResult.NoChange := by
  constructor
  · have hpost : t1 ≤ ((graph builder t1 s).2.2).last_reload := by
      rw [graph_eq_force builder t1 s h1.1 h1.2, force_reload_last_reload]
    have hge : t1 ≤
        (exec builder tr ((graph builder t1 s).2.2)).last_reload :=
      exec_last_reload_ge builder tr _ t1 hpost htr
    have hgap := h2.1
    omega
  · intro now st
    unfold graph_force_reload
    cases builder st.path st.config now <;> simp

/-- C6 witness: an attempt at 301 ms, a background mark at 400 ms, and the
next attempt at 602 ms — more than 300 ms apart; a forced reload at an
arbitrary time still attempts. -/
theorem auto_rebuild_debounce_witness :
    300 < 602 - 301 ∧
    (graph_force_reload builderOk 10 sampleState).2.1 ≠
      WatchResult.NoChange := by
  have h := auto_rebuild_debounce builderOk sampleState 301 602
    [(400, Op.mark)] (by constructor <;> decide) (by decide)
    (by constructor <;> decide)
  exact ⟨h.1, h.2 10 sampleState⟩

/-- C10: `graph_force_reload` never reads or clears the change flag: the
flag after the call equals the flag before, for every state; hence a flag
set before a forced reload is still set afterwards, and the first `graph`
call more than 300 ms after the forced reload delegates to a rebuild even
with no new mark in between. -/
theorem force_reload_preserves_flag {G : Type} (builder : Builder G)
    (t1 t2 : Nat) (s : WatcherState G)
    (hflag : s.changed = true) (hgap : 300 < t2 - t1) :
    (∀ st : WatcherState G,
      (graph_force_reload builder t1 st).2.2.changed = st.changed) ∧
    (graph_force_reload builder t1 s).2.2.changed = true ∧
    graph builder t2 ((graph_force_reload builder t1 s).2.2) =
      graph_force_reload builder t2
        { (graph_force_reload builder t1 s).2.2 with changed := false } := by
  refine ⟨fun st => force_reload_changed builder t1 st, ?_, ?_⟩
  · rw [force_reload_changed]
    exact hflag
  · apply graph_eq_force
    · rw [force_reload_last_reload]
      omega
    · rw [force_reload_changed]
      exact hflag

/-- C10 witness: the flag survives a failed forced reload at 10 ms and the
poll at 400 ms rebuilds without a new mark. -/
theorem force_reload_preserves_flag_witness :
    (graph_force_reload builderFail 10 sampleState).2.2.changed = true ∧
    graph builderFail 400 ((graph_force_reload builderFail 10 sampleState).2.2) =
      graph_force_reload builderFail 400
        { (graph_force_reload builderFail 10 sampleState).2.2 with
            changed := false } := by
  have h := force_reload_preserves_flag builderFail 10 400 sampleState
    rfl (by decide)
  exact ⟨h.2.1, h.2.2⟩

end Shadergarden
